import Mathlib

/-!
Shallow embedding of `src/datasets/reconstruction.py` (bozeklab/AME).

The module defines `BaseReconstructionDataModule`, a PyTorch-Lightning data
module for image reconstruction: it resolves three split directories from a
root, checks their existence in `prepare_data`, constructs
`ReconstructionDataset` adapters in `setup` keyed by the lifecycle stage, and
builds dataloaders for train/val/test.  `Coco2014Reconstruction` supplies the
concrete split mapping.

Python runtime features are modelled as follows:
- the filesystem is a map from path to an optional list of files
  (`none` = path does not exist);
- exceptions are the `PyError` type, and fallible operations return `Except`;
- instance attributes that may be unset (`train_dataset`, `val_dataset`,
  `test_dataset`) are `Option` fields; reading an unset one yields
  `PyError.attributeError`, mirroring Python's `AttributeError`;
- `raise NotImplemented()` in Python calls the non-callable `NotImplemented`
  singleton, so at runtime it raises
  `TypeError: 'NotImplementedType' object is not callable`; the embedding
  renders it as `PyError.typeError` with that message;
- `print(f'Loaded {n} ... samples')` diagnostics are collected as the list of
  reported counts;
- `DataLoader` iteration (batch_size=b, drop_last defaulting to False) is the
  chunking of the sample stream into consecutive groups of `b`;
- `RandomSampler(replacement=True, num_samples=N)` draws `N` indices below the
  dataset length; the random source is an explicit parameter `r : Nat → Nat`
  reduced modulo the dataset length, covering every possible draw sequence.
-/

namespace Reconstruction

/-- A filesystem: maps a path to the list of files under it, or `none` when
the path does not exist. -/
def FS : Type := String → Option (List String)

/-- Truth value of `os.path.exists(p)`. -/
def pathExists (fs : FS) (p : String) : Bool :=
  (fs p).isSome

/-- Python exception kinds observable in this module. -/
inductive PyError where
  | assertionError
  | attributeError (name : String)
  | typeError (msg : String)
  deriving DecidableEq, Repr

/-- Modelled from the spec: `ReconstructionDataset` lives in `datasets/utils`,
which is not part of this source fragment; the spec describes it as a dataset
adapter wrapping "a directory of files into an indexable, lazily-loaded
collection of samples".  It is modelled as the list of files the filesystem
holds under `root_dir`; its cardinality (`len`) is the list length. -/
def ReconstructionDataset (fs : FS) (root_dir : String) : List String :=
  (fs root_dir).getD []

/-- Semantics of `os.path.join(a, b)` (posix, two arguments): an absolute
second component replaces the first; otherwise the parts are glued with a
single `/` unless `a` is empty or already ends in `/`. -/
def os_path_join (a b : String) : String :=
  if b.data.head? = some '/' then b
  else if a = "" ∨ a.data.getLast? = some '/' then a ++ b
  else a ++ "/" ++ b

/-- Configuration record populated by the argparse collaborator
(`args` in `__init__`). -/
structure Config where
  data_dir : String
  train_batch_size : Nat
  eval_batch_size : Nat
  num_workers : Nat
  num_samples : Nat
  deriving DecidableEq, Repr

/-- Instance state of `BaseReconstructionDataModule`: the three resolved split
directories, the copied configuration values, and the three dataset-adapter
attributes, unset (`none`) until the matching `setup` stage assigns them. -/
structure DataModule where
  train_dir : String
  val_dir : String
  test_dir : String
  train_batch_size : Nat
  eval_batch_size : Nat
  num_workers : Nat
  num_samples : Nat
  train_dataset : Option (List String)
  val_dataset : Option (List String)
  test_dataset : Option (List String)
  deriving DecidableEq, Repr

namespace BaseReconstructionDataModule

/-- Argparse option value types used by `add_argparse_args`. -/
inductive ArgType where
  | str
  | int
  deriving DecidableEq, Repr

/-- One `parser.add_argument` declaration: option name, help text, value type,
required flag, and default value (`none` when no default is declared). -/
structure ArgSpec where
  name : String
  help : String
  argType : ArgType
  required : Bool
  defaultVal : Option Nat
  deriving DecidableEq, Repr

/-- The option declarations made by
`BaseReconstructionDataModule.add_argparse_args`, in source order. -/
def add_argparse_args : List ArgSpec :=
  [⟨"data_dir", "dataset location", ArgType.str, true, none⟩,
   ⟨"train_batch_size", "batch size for training", ArgType.int, false, some 16⟩,
   ⟨"eval_batch_size", "batch size for validation and testing", ArgType.int, false, some 64⟩,
   ⟨"num_workers", "dataloader workers per DDP process", ArgType.int, false, some 4⟩,
   ⟨"num_samples", "number of images to sample in each training epoch", ArgType.int, false, some 50000⟩]

/-- The base `_get_split_dirs`: `raise NotImplemented()`, which at runtime is a
`TypeError` because the `NotImplemented` singleton is not callable. -/
def _get_split_dirs (data_dir : String) : Except PyError (String × String × String) :=
  Except.error (PyError.typeError "NotImplementedType object is not callable")

/-- The body of `prepare_data`: three sequential
`assert dir and os.path.exists(dir)` statements over train, val and test
directories.  It reads only the directory fields and constructs nothing. -/
def prepare_data (fs : FS) (m : DataModule) : Except PyError Unit :=
  if ¬(m.train_dir ≠ "" ∧ pathExists fs m.train_dir) then Except.error PyError.assertionError
  else if ¬(m.val_dir ≠ "" ∧ pathExists fs m.val_dir) then Except.error PyError.assertionError
  else if ¬(m.test_dir ≠ "" ∧ pathExists fs m.test_dir) then Except.error PyError.assertionError
  else Except.ok ()

/-- The body of `setup(stage)`.  Returns the post-state together with either
the list of diagnostic counts printed, or the exception raised.  Mutations
before the raising statement persist in the post-state, as in Python: in the
`test` branch `self.test_dataset` is assigned before the diagnostic reads
`len(self.val_dataset)`.  The `else` branch executes `raise NotImplemented()`.
-/
def setup (fs : FS) (m : DataModule) (stage : Option String) :
    DataModule × Except PyError (List Nat) :=
  if stage = some "fit" then
    let td := ReconstructionDataset fs m.train_dir
    let vd := ReconstructionDataset fs m.val_dir
    ({ m with train_dataset := some td, val_dataset := some vd },
      Except.ok [td.length, vd.length])
  else if stage = some "test" then
    let sd := ReconstructionDataset fs m.test_dir
    let m2 := { m with test_dataset := some sd }
    match m.val_dataset with
    | some vd => (m2, Except.ok [vd.length])
    | none => (m2, Except.error (PyError.attributeError "val_dataset"))
  else
    (m, Except.error (PyError.typeError "NotImplementedType object is not callable"))

end BaseReconstructionDataModule

/-- The training `DataLoader` as constructed by `train_dataloader`: the
dataset, `batch_size=train_batch_size`, `num_workers`, and a
`RandomSampler(replacement=True, num_samples=num_samples)`. -/
structure TrainLoader where
  dataset : List String
  batch_size : Nat
  num_workers : Nat
  num_samples : Nat
  deriving DecidableEq, Repr

/-- An evaluation `DataLoader` as constructed by `val_dataloader` and
`test_dataloader`: the dataset, `batch_size=eval_batch_size`,
`shuffle=False`, `num_workers`. -/
structure EvalLoader where
  dataset : List String
  batch_size : Nat
  num_workers : Nat
  deriving DecidableEq, Repr

namespace BaseReconstructionDataModule

/-- The body of `train_dataloader`: reading `self.train_dataset` raises
`AttributeError` when `setup('fit')` never ran; otherwise the `DataLoader` is
built. -/
def train_dataloader (m : DataModule) : Except PyError TrainLoader :=
  match m.train_dataset with
  | none => Except.error (PyError.attributeError "train_dataset")
  | some ds => Except.ok ⟨ds, m.train_batch_size, m.num_workers, m.num_samples⟩

/-- The body of `test_dataloader`: reading `self.test_dataset` raises
`AttributeError` when `setup('test')` never ran. -/
def test_dataloader (m : DataModule) : Except PyError EvalLoader :=
  match m.test_dataset with
  | none => Except.error (PyError.attributeError "test_dataset")
  | some ds => Except.ok ⟨ds, m.eval_batch_size, m.num_workers⟩

/-- The body of `val_dataloader`: reading `self.val_dataset` raises
`AttributeError` when `setup('fit')` never ran. -/
def val_dataloader (m : DataModule) : Except PyError EvalLoader :=
  match m.val_dataset with
  | none => Except.error (PyError.attributeError "val_dataset")
  | some ds => Except.ok ⟨ds, m.eval_batch_size, m.num_workers⟩

end BaseReconstructionDataModule

/-- Fuelled chunking: `chunkFuel b fuel xs` splits `xs` into consecutive
groups of `b`, consuming one unit of fuel per group.  `chunk` supplies
`xs.length` as fuel, which suffices whenever `b > 0`. -/
def chunkFuel {α : Type} (b : Nat) : Nat → List α → List (List α)
  | _, [] => []
  | 0, _ :: _ => []
  | fuel + 1, x :: l => ((x :: l).take b) :: chunkFuel b fuel ((x :: l).drop b)

/-- Iteration of a `torch.utils.data.DataLoader` with `batch_size = b` and the
default `drop_last=False`: the sample stream split into consecutive batches of
`b`, the last batch possibly shorter. -/
def chunk {α : Type} (b : Nat) (xs : List α) : List (List α) :=
  chunkFuel b xs.length xs

/-- Index stream of `RandomSampler(ds, replacement=True, num_samples=N)` on a
dataset of size `n`: `N` independent draws below `n`.  The random source `r`
is explicit; reducing it modulo `n` ranges over exactly the draw sequences the
sampler can produce. -/
def RandomSampler (n N : Nat) (r : Nat → Nat) : List Nat :=
  (List.range N).map (fun i => r i % n)

/-- One full epoch of the training loader under random source `r`: the sampled
elements, chunked into batches of `batch_size`. -/
def TrainLoader.epoch (L : TrainLoader) (r : Nat → Nat) : List (List String) :=
  chunk L.batch_size ((RandomSampler L.dataset.length L.num_samples r).map
    (fun i => L.dataset.getD i ""))

/-- One full epoch of an evaluation loader (`shuffle=False`): the dataset in
its natural index order, chunked into batches of `batch_size`. -/
def EvalLoader.epoch (L : EvalLoader) : List (List String) :=
  chunk L.batch_size L.dataset

namespace Coco2014Reconstruction

/-- `Coco2014Reconstruction._get_split_dirs`: joins the root with the three
fixed subdirectory names. -/
def _get_split_dirs (data_dir : String) : String × String × String :=
  (os_path_join data_dir "train2014",
   os_path_join data_dir "val2014",
   os_path_join data_dir "test2014")

/-- `Coco2014Reconstruction(args)`: `__init__` resolves the split directories
through the subclass `_get_split_dirs` and copies the four configuration
values unchanged; the three dataset attributes start unset. -/
def init (cfg : Config) : DataModule :=
  let dirs := _get_split_dirs cfg.data_dir
  ⟨dirs.1, dirs.2.1, dirs.2.2,
   cfg.train_batch_size, cfg.eval_batch_size, cfg.num_workers, cfg.num_samples,
   none, none, none⟩

end Coco2014Reconstruction

/-! Concrete objects used by the witnesses: a root `/d` holding a train split
of 3 files, a val split of 2 files and a test split of 5 files, and a module
configured with `train_batch_size = 2`, `eval_batch_size = 2`,
`num_samples = 10` (the concrete scenario of the spec). -/

/-- Demo filesystem: `/d/train2014` with 3 files, `/d/val2014` with 2,
`/d/test2014` with 5. -/
def demoFS : FS := fun p =>
  if p = "/d/train2014" then some ["t1", "t2", "t3"]
  else if p = "/d/val2014" then some ["v1", "v2"]
  else if p = "/d/test2014" then some ["s1", "s2", "s3", "s4", "s5"]
  else none

/-- Demo configuration: `data_dir=/d`, batch sizes 2, 4 workers,
`num_samples=10`. -/
def demoCfg : Config := ⟨"/d", 2, 2, 4, 10⟩

/-- The demo module, freshly constructed (no adapter set). -/
def demoModule : DataModule := Coco2014Reconstruction.init demoCfg

/-- The demo module after `setup('fit')` and `setup('test')` on `demoFS`:
all three adapters populated. -/
def demoLoaded : DataModule :=
  ⟨"/d/train2014", "/d/val2014", "/d/test2014", 2, 2, 4, 10,
   some ["t1", "t2", "t3"], some ["v1", "v2"],
   some ["s1", "s2", "s3", "s4", "s5"]⟩

/-! Auxiliary lemmas about `chunk`, the model of `DataLoader` batching. -/

/-- Ceiling-division step: prepending one batch to the chunking of the
remainder matches the closed form, for a non-empty stream. -/
theorem ceil_div_step (b l : Nat) (hb : 0 < b) (hl : 0 < l) :
    (l - b + b - 1) / b + 1 = (l + b - 1) / b := by
  by_cases h : l ≤ b
  · have e1 : l - b + b - 1 = b - 1 := by omega
    have e2 : l + b - 1 = (l - 1) + b := by omega
    rw [e1, e2, Nat.add_div_right _ hb,
      Nat.div_eq_of_lt (show b - 1 < b by omega),
      Nat.div_eq_of_lt (show l - 1 < b by omega)]
  · have e1 : l - b + b - 1 = (l - b - 1) + b := by omega
    have e2 : l + b - 1 = ((l - b - 1) + b) + b := by omega
    rw [e1, e2]
    simp only [Nat.add_div_right _ hb]

/-- With enough fuel, chunking yields `ceil (length / b)` batches. -/
theorem chunkFuel_length {α : Type} (b : Nat) (hb : 0 < b) :
    ∀ (fuel : Nat) (xs : List α), xs.length ≤ fuel →
      (chunkFuel b fuel xs).length = (xs.length + b - 1) / b := by
  intro fuel
  induction fuel with
  | zero =>
    intro xs h
    have hxs : xs = [] := List.length_eq_zero.mp (Nat.le_zero.mp h)
    subst hxs
    simp only [chunkFuel, List.length_nil, Nat.zero_add]
    exact (Nat.div_eq_of_lt (by omega)).symm
  | succ n ih =>
    intro xs h
    match xs with
    | [] =>
      simp only [chunkFuel, List.length_nil, Nat.zero_add]
      exact (Nat.div_eq_of_lt (by omega)).symm
    | x :: l =>
      have h2 : l.length + 1 ≤ n + 1 := by simpa using h
      have hdrop : ((x :: l).drop b).length ≤ n := by
        simp only [List.length_drop, List.length_cons]
        omega
      have hrec := ih ((x :: l).drop b) hdrop
      simp only [chunkFuel, List.length_cons, hrec, List.length_drop]
      exact ceil_div_step b (l.length + 1) hb (by omega)

/-- With enough fuel, concatenating the chunks gives back the stream. -/
theorem chunkFuel_flatten {α : Type} (b : Nat) (hb : 0 < b) :
    ∀ (fuel : Nat) (xs : List α), xs.length ≤ fuel →
      (chunkFuel b fuel xs).flatten = xs := by
  intro fuel
  induction fuel with
  | zero =>
    intro xs h
    have hxs : xs = [] := List.length_eq_zero.mp (Nat.le_zero.mp h)
    subst hxs
    simp [chunkFuel]
  | succ n ih =>
    intro xs h
    match xs with
    | [] => simp [chunkFuel]
    | x :: l =>
      have h2 : l.length + 1 ≤ n + 1 := by simpa using h
      have hdrop : ((x :: l).drop b).length ≤ n := by
        simp only [List.length_drop, List.length_cons]
        omega
      simp only [chunkFuel, List.flatten_cons, ih ((x :: l).drop b) hdrop,
        List.take_append_drop]

/-- With enough fuel, every chunk is non-empty and no longer than `b`. -/
theorem chunkFuel_mem {α : Type} (b : Nat) (hb : 0 < b) :
    ∀ (fuel : Nat) (xs : List α) (c : List α), xs.length ≤ fuel →
      c ∈ chunkFuel b fuel xs → c.length ≤ b ∧ c ≠ [] := by
  intro fuel
  induction fuel with
  | zero =>
    intro xs c h hc
    have hxs : xs = [] := List.length_eq_zero.mp (Nat.le_zero.mp h)
    subst hxs
    simp [chunkFuel] at hc
  | succ n ih =>
    intro xs c h hc
    match xs with
    | [] => simp [chunkFuel] at hc
    | x :: l =>
      have h2 : l.length + 1 ≤ n + 1 := by simpa using h
      simp only [chunkFuel, List.mem_cons] at hc
      rcases hc with hc | hc
      · subst hc
        have hlen : ((x :: l).take b).length = min b (l.length + 1) := by
          simp [List.length_take]
        constructor
        · omega
        · intro hnil
          rw [hnil] at hlen
          simp only [List.length_nil] at hlen
          omega
      · have hdrop : ((x :: l).drop b).length ≤ n := by
          simp only [List.length_drop, List.length_cons]
          omega
        exact ih ((x :: l).drop b) c hdrop hc

/-- With enough fuel, when `b` divides the stream length every chunk has
length exactly `b`. -/
theorem chunkFuel_mem_dvd {α : Type} (b : Nat) (hb : 0 < b) :
    ∀ (fuel : Nat) (xs : List α) (c : List α), xs.length ≤ fuel →
      b ∣ xs.length → c ∈ chunkFuel b fuel xs → c.length = b := by
  intro fuel
  induction fuel with
  | zero =>
    intro xs c h _ hc
    have hxs : xs = [] := List.length_eq_zero.mp (Nat.le_zero.mp h)
    subst hxs
    simp [chunkFuel] at hc
  | succ n ih =>
    intro xs c h hdvd hc
    match xs with
    | [] => simp [chunkFuel] at hc
    | x :: l =>
      have h2 : l.length + 1 ≤ n + 1 := by simpa using h
      rcases hdvd with ⟨k, hk⟩
      simp only [List.length_cons] at hk
      rcases k with _ | k0
      · simp at hk
      · rw [Nat.mul_succ] at hk
        have hble : b ≤ l.length + 1 := by omega
        simp only [chunkFuel, List.mem_cons] at hc
        rcases hc with hc | hc
        · subst hc
          simp only [List.length_take, List.length_cons]
          omega
        · have hdrop : ((x :: l).drop b).length ≤ n := by
            simp only [List.length_drop, List.length_cons]
            omega
          have hdvd2 : b ∣ ((x :: l).drop b).length := by
            simp only [List.length_drop, List.length_cons]
            exact ⟨k0, by omega⟩
          exact ih ((x :: l).drop b) c hdrop hdvd2 hc

/-- Chunking a stream into batches of `b > 0` yields `ceil (length / b)`
batches whose concatenation is the stream, each non-empty and of length at
most `b`; when `b` divides the length, each batch has length exactly `b`. -/
theorem chunk_spec {α : Type} (b : Nat) (hb : 0 < b) (xs : List α) :
    (chunk b xs).length = (xs.length + b - 1) / b ∧
    (chunk b xs).flatten = xs ∧
    (∀ c ∈ chunk b xs, c.length ≤ b ∧ c ≠ []) ∧
    (b ∣ xs.length → ∀ c ∈ chunk b xs, c.length = b) := by
  refine ⟨chunkFuel_length b hb xs.length xs le_rfl,
    chunkFuel_flatten b hb xs.length xs le_rfl,
    fun c hc => chunkFuel_mem b hb xs.length xs c le_rfl hc,
    fun hdvd c hc => chunkFuel_mem_dvd b hb xs.length xs c le_rfl hdvd hc⟩

/-! Auxiliary lemmas about string concatenation, for the split resolver. -/

/-- Appending to a common left part is injective. -/
theorem string_append_cancel {R x y : String} (h : R ++ x = R ++ y) : x = y := by
  have hd : (R ++ x).data = (R ++ y).data := congrArg String.data h
  rw [String.data_append, String.data_append] at hd
  exact String.ext (List.append_cancel_left hd)

/-- Appending a non-empty string never yields the empty string. -/
theorem string_append_ne_empty (R x : String) (hx : x ≠ "") : R ++ x ≠ "" := by
  intro h
  have hd : (R ++ x).data = ("" : String).data := congrArg String.data h
  rw [String.data_append] at hd
  exact hx (String.ext (List.append_eq_nil.mp hd).2)

open BaseReconstructionDataModule in
/-- Claim C5: `prepare_data` raises `AssertionError` exactly when one of the
three split paths is empty or absent from the filesystem; otherwise it returns
normally.  It constructs no adapter: its result is independent of the three
dataset fields, which it never writes (it returns no modified state). -/
theorem prepare_data_spec (fs : FS) (m : DataModule) :
    (prepare_data fs m = Except.ok () ↔
      (m.train_dir ≠ "" ∧ pathExists fs m.train_dir) ∧
      (m.val_dir ≠ "" ∧ pathExists fs m.val_dir) ∧
      (m.test_dir ≠ "" ∧ pathExists fs m.test_dir)) ∧
    (prepare_data fs m = Except.error PyError.assertionError ↔
      ¬((m.train_dir ≠ "" ∧ pathExists fs m.train_dir) ∧
        (m.val_dir ≠ "" ∧ pathExists fs m.val_dir) ∧
        (m.test_dir ≠ "" ∧ pathExists fs m.test_dir))) ∧
    (∀ a b c : Option (List String),
      prepare_data fs { m with train_dataset := a, val_dataset := b, test_dataset := c }
        = prepare_data fs m) := by
  refine ⟨?_, ?_, fun a b c => rfl⟩ <;>
  · unfold prepare_data
    by_cases h1 : m.train_dir ≠ "" ∧ pathExists fs m.train_dir <;>
      by_cases h2 : m.val_dir ≠ "" ∧ pathExists fs m.val_dir <;>
        by_cases h3 : m.test_dir ≠ "" ∧ pathExists fs m.test_dir <;>
          simp [h1, h2, h3]

open BaseReconstructionDataModule in
/-- Claim C7 (code evaluation): for every stage other than `'fit'` and
`'test'` (the default `None` included), `setup` leaves the module state
untouched — no adapter is constructed — and raises.  The raised error is a
`TypeError`, because `raise NotImplemented()` calls the non-callable
`NotImplemented` singleton instead of raising `NotImplementedError`. -/
theorem setup_other_stage (fs : FS) (m : DataModule) (stage : Option String)
    (h1 : stage ≠ some "fit") (h2 : stage ≠ some "test") :
    setup fs m stage =
      (m, Except.error (PyError.typeError "NotImplementedType object is not callable")) := by
  unfold setup
  rw [if_neg h1, if_neg h2]

/-- Claim C7 witness: entering `setup` with the default stage `None` on the
demo module changes nothing and raises the `TypeError`. -/
theorem setup_other_stage_witness :
    BaseReconstructionDataModule.setup demoFS demoModule none =
      (demoModule,
        Except.error (PyError.typeError "NotImplementedType object is not callable")) :=
  setup_other_stage demoFS demoModule none (by decide) (by decide)

open BaseReconstructionDataModule in
/-- Claim C8 (code evaluation): the base `_get_split_dirs` fails on every
input and offers no default split mapping.  The failure is a `TypeError`,
because `raise NotImplemented()` calls the non-callable `NotImplemented`
singleton instead of raising `NotImplementedError`. -/
theorem base_get_split_dirs_raises (data_dir : String) :
    BaseReconstructionDataModule._get_split_dirs data_dir =
      Except.error (PyError.typeError "NotImplementedType object is not callable") :=
  rfl

open BaseReconstructionDataModule in
/-- Claim C9: `add_argparse_args` declares exactly the five options
`data_dir` (string, required), `train_batch_size` (int, default 16),
`eval_batch_size` (int, default 64), `num_workers` (int, default 4),
`num_samples` (int, default 50000); and no range validation happens anywhere:
`__init__` copies every configured value unchanged, so a batch size of zero is
accepted. -/
theorem add_argparse_args_spec :
    add_argparse_args.map ArgSpec.name =
      ["data_dir", "train_batch_size", "eval_batch_size", "num_workers", "num_samples"] ∧
    add_argparse_args.map ArgSpec.argType =
      [ArgType.str, ArgType.int, ArgType.int, ArgType.int, ArgType.int] ∧
    add_argparse_args.map ArgSpec.required = [true, false, false, false, false] ∧
    add_argparse_args.map ArgSpec.defaultVal = [none, some 16, some 64, some 4, some 50000] ∧
    (∀ cfg : Config,
      (Coco2014Reconstruction.init cfg).train_batch_size = cfg.train_batch_size ∧
      (Coco2014Reconstruction.init cfg).eval_batch_size = cfg.eval_batch_size ∧
      (Coco2014Reconstruction.init cfg).num_workers = cfg.num_workers ∧
      (Coco2014Reconstruction.init cfg).num_samples = cfg.num_samples) ∧
    (Coco2014Reconstruction.init ⟨"/d", 0, 0, 0, 0⟩).train_batch_size = 0 :=
  ⟨rfl, rfl, rfl, rfl, fun cfg => ⟨rfl, rfl, rfl, rfl⟩, rfl⟩

open BaseReconstructionDataModule in
/-- Claim C10: entering `setup('test')` on a controller that never entered
`'fit'` assigns the test adapter first, then raises `AttributeError` on
`val_dataset` when the diagnostic evaluates `len(self.val_dataset)`: the
transition errors, yet the post-state holds the constructed test adapter. -/
theorem setup_test_without_fit (fs : FS) (m : DataModule)
    (h : m.val_dataset = none) :
    setup fs m (some "test") =
      ({ m with test_dataset := some (ReconstructionDataset fs m.test_dir) },
        Except.error (PyError.attributeError "val_dataset")) := by
  unfold setup
  rw [if_neg (by decide), if_pos rfl, h]

/-- Claim C10 witness: on the fresh demo module (never entered `'fit'`),
`setup('test')` stores the five-file test adapter and raises `AttributeError`
on `val_dataset`. -/
theorem setup_test_without_fit_witness :
    BaseReconstructionDataModule.setup demoFS demoModule (some "test") =
      ({ demoModule with test_dataset := some ["s1", "s2", "s3", "s4", "s5"] },
        Except.error (PyError.attributeError "val_dataset")) :=
  setup_test_without_fit demoFS demoModule rfl

open BaseReconstructionDataModule in
/-- Claim C2: after entering `setup('fit')` (which itself succeeds and
reports both counts), requesting the training dataloader succeeds — the train
adapter is present — while requesting the test dataloader on a controller that
never entered `'test'` raises `AttributeError` on `test_dataset`. -/
theorem fit_then_providers (fs : FS) (m : DataModule)
    (h : m.test_dataset = none) :
    (setup fs m (some "fit")).2 =
      Except.ok [(ReconstructionDataset fs m.train_dir).length,
        (ReconstructionDataset fs m.val_dir).length] ∧
    train_dataloader (setup fs m (some "fit")).1 =
      Except.ok ⟨ReconstructionDataset fs m.train_dir,
        m.train_batch_size, m.num_workers, m.num_samples⟩ ∧
    test_dataloader (setup fs m (some "fit")).1 =
      Except.error (PyError.attributeError "test_dataset") := by
  unfold setup train_dataloader test_dataloader
  rw [if_pos rfl]
  exact ⟨rfl, rfl, by rw [h]⟩

/-- Claim C2 witness: on the demo module, `setup('fit')` reports counts 3 and
2, the training dataloader is then built over the three train files, and the
test dataloader raises `AttributeError` on `test_dataset`. -/
theorem fit_then_providers_witness :
    (BaseReconstructionDataModule.setup demoFS demoModule (some "fit")).2 =
      Except.ok [3, 2] ∧
    BaseReconstructionDataModule.train_dataloader
        (BaseReconstructionDataModule.setup demoFS demoModule (some "fit")).1 =
      Except.ok ⟨["t1", "t2", "t3"], 2, 4, 10⟩ ∧
    BaseReconstructionDataModule.test_dataloader
        (BaseReconstructionDataModule.setup demoFS demoModule (some "fit")).1 =
      Except.error (PyError.attributeError "test_dataset") :=
  fit_then_providers demoFS demoModule rfl

open BaseReconstructionDataModule in
/-- Claim C1 (code evaluation, failing input): on the demo module (val split
of 2 files, test split of 5), entering `setup('test')` after `setup('fit')`
constructs exactly one adapter — the test split's, the train and val fields
are untouched — but the diagnostic reports 2, the validation adapter's
cardinality, while the test adapter's true cardinality is 5: the code prints
`len(self.val_dataset)` in the test branch. -/
theorem setup_test_diagnostic_mismatch :
    (setup demoFS ((setup demoFS demoModule (some "fit")).1) (some "test")).2 =
      Except.ok [2] ∧
    ((setup demoFS ((setup demoFS demoModule (some "fit")).1) (some "test")).1).test_dataset =
      some ["s1", "s2", "s3", "s4", "s5"] ∧
    ((setup demoFS ((setup demoFS demoModule (some "fit")).1) (some "test")).1).train_dataset =
      ((setup demoFS demoModule (some "fit")).1).train_dataset ∧
    ((setup demoFS ((setup demoFS demoModule (some "fit")).1) (some "test")).1).val_dataset =
      ((setup demoFS demoModule (some "fit")).1).val_dataset ∧
    (ReconstructionDataset demoFS "/d/test2014").length = 5 ∧
    (2 : Nat) ≠ 5 :=
  ⟨rfl, rfl, rfl, rfl, rfl, by decide⟩

/-- Claim C3: a training epoch draws exactly `num_samples` samples from the
dataset (with replacement: the same index may repeat), grouped into batches of
`batch_size` (`ceil (num_samples / batch_size)` of them, none longer than
`batch_size`), independently of the dataset size; with `num_samples = 10` and
`batch_size = 2` an epoch is 5 batches of 2 samples each. -/
theorem train_epoch_spec (L : TrainLoader) (r : Nat → Nat)
    (hb : 0 < L.batch_size) (hne : L.dataset ≠ []) :
    ((L.epoch r).flatten).length = L.num_samples ∧
    (∀ x ∈ (L.epoch r).flatten, x ∈ L.dataset) ∧
    (L.epoch r).length = (L.num_samples + L.batch_size - 1) / L.batch_size ∧
    (∀ c ∈ L.epoch r, c.length ≤ L.batch_size) ∧
    (L.num_samples = 10 → L.batch_size = 2 →
      (L.epoch r).length = 5 ∧ ∀ c ∈ L.epoch r, c.length = 2) := by
  have hn : 0 < L.dataset.length := List.length_pos.mpr hne
  have hslen : ((RandomSampler L.dataset.length L.num_samples r).map
      (fun i => L.dataset.getD i "")).length = L.num_samples := by
    simp [RandomSampler]
  have hspec := chunk_spec L.batch_size hb
    ((RandomSampler L.dataset.length L.num_samples r).map (fun i => L.dataset.getD i ""))
  have hepoch : L.epoch r = chunk L.batch_size
      ((RandomSampler L.dataset.length L.num_samples r).map
        (fun i => L.dataset.getD i "")) := rfl
  refine ⟨?_, ?_, ?_, ?_, ?_⟩
  · rw [hepoch, hspec.2.1, hslen]
  · intro x hx
    rw [hepoch, hspec.2.1] at hx
    obtain ⟨j, hj, rfl⟩ := List.mem_map.mp hx
    have hjlt : j < L.dataset.length := by
      obtain ⟨i, _, rfl⟩ := List.mem_map.mp hj
      exact Nat.mod_lt _ hn
    rw [List.getD_eq_getElem L.dataset "" hjlt]
    exact List.getElem_mem hjlt
  · rw [hepoch, hspec.1, hslen]
  · intro c hc
    rw [hepoch] at hc
    exact (hspec.2.2.1 c hc).1
  · intro h10 h2
    constructor
    · rw [hepoch, hspec.1, hslen, h10, h2]
    · intro c hc
      rw [hepoch] at hc
      have hdvd : L.batch_size ∣ ((RandomSampler L.dataset.length L.num_samples r).map
          (fun i => L.dataset.getD i "")).length := by
        rw [hslen, h10, h2]
        decide
      have hc2 := hspec.2.2.2 hdvd c hc
      rw [h2] at hc2
      exact hc2

/-- Claim C3 witness: on a 3-file dataset with `num_samples = 10` and
`batch_size = 2` (the spec's concrete scenario), under the identity draw
sequence, a training epoch totals 10 draws in 5 batches of 2 each. -/
theorem train_epoch_spec_witness :
    (((TrainLoader.mk ["a", "b", "c"] 2 4 10).epoch (fun i => i)).flatten).length = 10 ∧
    ((TrainLoader.mk ["a", "b", "c"] 2 4 10).epoch (fun i => i)).length = 5 ∧
    (∀ c ∈ (TrainLoader.mk ["a", "b", "c"] 2 4 10).epoch (fun i => i), c.length = 2) := by
  have h := train_epoch_spec (TrainLoader.mk ["a", "b", "c"] 2 4 10) (fun i => i)
    (by decide) (by decide)
  exact ⟨h.1, (h.2.2.2.2 rfl rfl).1, (h.2.2.2.2 rfl rfl).2⟩

open BaseReconstructionDataModule in
/-- Claim C4: when the matching adapter is set, the validation (resp. test)
dataloader is built over it with the eval batch size; a full epoch is
`ceil (size / eval_batch_size)` batches whose concatenation is exactly the
dataset in natural index order (no repeats, no shuffling), and a second full
pass is identical (the epoch is a deterministic function of the loader). -/
theorem eval_epoch_spec (m : DataModule) (vds tds : List String)
    (hb : 0 < m.eval_batch_size) :
    (m.val_dataset = some vds →
      val_dataloader m = Except.ok ⟨vds, m.eval_batch_size, m.num_workers⟩ ∧
      (EvalLoader.mk vds m.eval_batch_size m.num_workers).epoch.length =
        (vds.length + m.eval_batch_size - 1) / m.eval_batch_size ∧
      (EvalLoader.mk vds m.eval_batch_size m.num_workers).epoch.flatten = vds ∧
      (EvalLoader.mk vds m.eval_batch_size m.num_workers).epoch =
        (EvalLoader.mk vds m.eval_batch_size m.num_workers).epoch) ∧
    (m.test_dataset = some tds →
      test_dataloader m = Except.ok ⟨tds, m.eval_batch_size, m.num_workers⟩ ∧
      (EvalLoader.mk tds m.eval_batch_size m.num_workers).epoch.length =
        (tds.length + m.eval_batch_size - 1) / m.eval_batch_size ∧
      (EvalLoader.mk tds m.eval_batch_size m.num_workers).epoch.flatten = tds ∧
      (EvalLoader.mk tds m.eval_batch_size m.num_workers).epoch =
        (EvalLoader.mk tds m.eval_batch_size m.num_workers).epoch) := by
  have h1 := chunk_spec m.eval_batch_size hb vds
  have h2 := chunk_spec m.eval_batch_size hb tds
  refine ⟨fun hv => ⟨?_, h1.1, h1.2.1, rfl⟩, fun ht => ⟨?_, h2.1, h2.2.1, rfl⟩⟩
  · unfold val_dataloader
    rw [hv]
  · unfold test_dataloader
    rw [ht]

/-- Claim C4 witness: on the loaded demo module (val split of 2 files, test
split of 5, eval batch size 2), the val epoch is 1 batch concatenating to the
2 files and the test epoch is 3 batches concatenating to the 5 files, both
passes identical. -/
theorem eval_epoch_spec_witness :
    (BaseReconstructionDataModule.val_dataloader demoLoaded =
        Except.ok ⟨["v1", "v2"], 2, 4⟩ ∧
      (EvalLoader.mk ["v1", "v2"] 2 4).epoch.length = 1 ∧
      (EvalLoader.mk ["v1", "v2"] 2 4).epoch.flatten = ["v1", "v2"] ∧
      (EvalLoader.mk ["v1", "v2"] 2 4).epoch = (EvalLoader.mk ["v1", "v2"] 2 4).epoch) ∧
    (BaseReconstructionDataModule.test_dataloader demoLoaded =
        Except.ok ⟨["s1", "s2", "s3", "s4", "s5"], 2, 4⟩ ∧
      (EvalLoader.mk ["s1", "s2", "s3", "s4", "s5"] 2 4).epoch.length = 3 ∧
      (EvalLoader.mk ["s1", "s2", "s3", "s4", "s5"] 2 4).epoch.flatten =
        ["s1", "s2", "s3", "s4", "s5"] ∧
      (EvalLoader.mk ["s1", "s2", "s3", "s4", "s5"] 2 4).epoch =
        (EvalLoader.mk ["s1", "s2", "s3", "s4", "s5"] 2 4).epoch) := by
  have h := eval_epoch_spec demoLoaded ["v1", "v2"] ["s1", "s2", "s3", "s4", "s5"] (by decide)
  exact ⟨h.1 rfl, h.2 rfl⟩

/-- Claim C6: for every non-empty root `R`, the Coco2014 split resolver is a
pure function of `R` returning three non-empty, pairwise-distinct paths, each
`R` followed by a separator (empty when `R` already ends in `/`, otherwise
`/`) and one of the fixed names `train2014`, `val2014`, `test2014` — so each
is nested under `R`. -/
theorem coco2014_get_split_dirs_spec (R : String) (h : R ≠ "") :
    (Coco2014Reconstruction._get_split_dirs R).1 ≠ "" ∧
    (Coco2014Reconstruction._get_split_dirs R).2.1 ≠ "" ∧
    (Coco2014Reconstruction._get_split_dirs R).2.2 ≠ "" ∧
    (Coco2014Reconstruction._get_split_dirs R).1 ≠
      (Coco2014Reconstruction._get_split_dirs R).2.1 ∧
    (Coco2014Reconstruction._get_split_dirs R).1 ≠
      (Coco2014Reconstruction._get_split_dirs R).2.2 ∧
    (Coco2014Reconstruction._get_split_dirs R).2.1 ≠
      (Coco2014Reconstruction._get_split_dirs R).2.2 ∧
    ∃ sep : String, (sep = "" ∨ sep = "/") ∧
      Coco2014Reconstruction._get_split_dirs R =
        (R ++ (sep ++ "train2014"), R ++ (sep ++ "val2014"), R ++ (sep ++ "test2014")) := by
  have n1 : ¬("train2014".data.head? = some '/') := by decide
  have n2 : ¬("val2014".data.head? = some '/') := by decide
  have n3 : ¬("test2014".data.head? = some '/') := by decide
  have hex : ∃ sep : String, (sep = "" ∨ sep = "/") ∧
      Coco2014Reconstruction._get_split_dirs R =
        (R ++ (sep ++ "train2014"), R ++ (sep ++ "val2014"), R ++ (sep ++ "test2014")) := by
    by_cases hsl : R.data.getLast? = some '/'
    · have hor : R = "" ∨ R.data.getLast? = some '/' := Or.inr hsl
      refine ⟨"", Or.inl rfl, ?_⟩
      unfold Coco2014Reconstruction._get_split_dirs os_path_join
      rw [if_neg n1, if_pos hor, if_neg n2, if_pos hor, if_neg n3, if_pos hor]
      exact rfl
    · have hor : ¬(R = "" ∨ R.data.getLast? = some '/') := by
        intro hc
        rcases hc with hc | hc
        · exact h hc
        · exact hsl hc
      refine ⟨"/", Or.inr rfl, ?_⟩
      unfold Coco2014Reconstruction._get_split_dirs os_path_join
      rw [if_neg n1, if_neg hor, if_neg n2, if_neg hor, if_neg n3, if_neg hor]
      rw [String.append_assoc, String.append_assoc, String.append_assoc]
  obtain ⟨sep, hsep, he⟩ := hex
  rw [he]
  refine ⟨string_append_ne_empty R _ ?_, string_append_ne_empty R _ ?_,
    string_append_ne_empty R _ ?_, fun hc => ?_, fun hc => ?_, fun hc => ?_,
    ⟨sep, hsep, rfl⟩⟩
  · rcases hsep with hs | hs <;> (subst hs; decide)
  · rcases hsep with hs | hs <;> (subst hs; decide)
  · rcases hsep with hs | hs <;> (subst hs; decide)
  · exact absurd (string_append_cancel (string_append_cancel hc)) (by decide)
  · exact absurd (string_append_cancel (string_append_cancel hc)) (by decide)
  · exact absurd (string_append_cancel (string_append_cancel hc)) (by decide)

/-- Claim C6 witness: at the concrete root `/data`, the resolver yields the
three nested, distinct, non-empty split paths. -/
theorem coco2014_get_split_dirs_spec_witness :
    (Coco2014Reconstruction._get_split_dirs "/data").1 ≠ "" ∧
    (Coco2014Reconstruction._get_split_dirs "/data").2.1 ≠ "" ∧
    (Coco2014Reconstruction._get_split_dirs "/data").2.2 ≠ "" ∧
    (Coco2014Reconstruction._get_split_dirs "/data").1 ≠
      (Coco2014Reconstruction._get_split_dirs "/data").2.1 ∧
    (Coco2014Reconstruction._get_split_dirs "/data").1 ≠
      (Coco2014Reconstruction._get_split_dirs "/data").2.2 ∧
    (Coco2014Reconstruction._get_split_dirs "/data").2.1 ≠
      (Coco2014Reconstruction._get_split_dirs "/data").2.2 ∧
    ∃ sep : String, (sep = "" ∨ sep = "/") ∧
      Coco2014Reconstruction._get_split_dirs "/data" =
        ("/data" ++ (sep ++ "train2014"), "/data" ++ (sep ++ "val2014"),
          "/data" ++ (sep ++ "test2014")) :=
  coco2014_get_split_dirs_spec "/data" (by decide)

end Reconstruction
